import Mathlib

/-!
Verification of the schema-driven tool-dispatch and agent-orchestration
subsystem of the `talks` repository (directory `2025-naf-autocon4`):

* `lookup_player_id` (ex02_function_calling.py and ex04_mcp_server.py),
* `get_player_stats` (both files),
* `compare_players` (ex04_mcp_server.py),
* `openapi_to_tools` (ex03_openapi_tools.py),
* the inline tool dispatch and agent loop step of `run_agent`
  (ex02_function_calling.py),
* the `functools.lru_cache` memoization wrapped around `lookup_player_id`.

The Python is shallowly embedded: JSON/YAML documents and untyped Python
values become the inductive `JValue`; Python statements that can raise
become `Except String`-valued functions, and a `try/except` around them
becomes a `match` on the `Except`; the network is an oracle passed as an
argument (`HttpOutcome` for one request, `String → HttpOutcome` for a
query-keyed service).  Python `float` arithmetic is modelled over exact
rationals (`ℚ`); the only float operations the code performs are
multiplication by 100, subtraction, comparison with 0 and `round(_, 1)`,
and no theorem below depends on binary-float rounding artefacts.
-/

/-- A Python/JSON value as it appears in the scripts: `None`, booleans,
numbers (ints and floats merged into `ℚ`), strings, lists and
(insertion-ordered) dicts with string keys. -/
inductive JValue where
  | jnull : JValue
  | jbool : Bool → JValue
  | jnum : ℚ → JValue
  | jstr : String → JValue
  | jlist : List JValue → JValue
  | jobj : List (String × JValue) → JValue

/-- First-match association-list lookup with string keys (Python dicts from
parsed JSON/YAML have unique keys, so first-match agrees with dict lookup). -/
def alookup {α : Type} : List (String × α) → String → Option α
  | [], _ => none
  | (k, v) :: t, q => if k = q then some v else alookup t q

/-- Python dict assignment `d[k] = v`: overwrite in place if the key exists
(keeping its position in insertion order), otherwise append at the end. -/
def assocSet {α : Type} : List (String × α) → String → α → List (String × α)
  | [], k, v => [(k, v)]
  | (k', v') :: t, k, v =>
      if k' = k then (k, v) :: t else (k', v') :: assocSet t k v

namespace JValue

/-- Python truthiness: `None`, `False`, `0`, `""`, `[]`, `{}` are falsy. -/
def truthy : JValue → Bool
  | .jnull => false
  | .jbool b => b
  | .jnum q => q != 0
  | .jstr s => s ≠ ""
  | .jlist xs => !xs.isEmpty
  | .jobj fs => !fs.isEmpty

def isNum : JValue → Bool
  | .jnum _ => true
  | _ => false

end JValue

/-- Python `len(v)`: defined for strings, lists and dicts, `TypeError`
otherwise. -/
def pyLen : JValue → Except String Nat
  | .jstr s => .ok s.length
  | .jlist xs => .ok xs.length
  | .jobj fs => .ok fs.length
  | _ => .error "TypeError: object has no len"

/-- Python `v[0]`: first element of a list, first character of a string;
a dict subscripted with `0` raises `KeyError` (string keys only here), and
everything else raises `TypeError`. -/
def pyIndexZero : JValue → Except String JValue
  | .jlist (x :: _) => .ok x
  | .jlist [] => .error "IndexError"
  | .jstr s =>
      match s.data with
      | c :: _ => .ok (.jstr (String.mk [c]))
      | [] => .error "IndexError"
  | .jobj _ => .error "KeyError: 0"
  | _ => .error "TypeError: not subscriptable"

/-- Python `d.get(k)` (default `None`): only dicts have `.get`. -/
def pyGet (v : JValue) (k : String) : Except String JValue :=
  match v with
  | .jobj fs => .ok ((alookup fs k).getD .jnull)
  | _ => .error "AttributeError: no attribute get"

/-- Python `d.get(k, default)`. -/
def pyGetD (v : JValue) (k : String) (d : JValue) : Except String JValue :=
  match v with
  | .jobj fs => .ok ((alookup fs k).getD d)
  | _ => .error "AttributeError: no attribute get"

/-- Python `d[k]` for a string key `k`. -/
def pySubscript (v : JValue) (k : String) : Except String JValue :=
  match v with
  | .jobj fs =>
      match alookup fs k with
      | some x => .ok x
      | none => .error ("KeyError: " ++ k)
  | _ => .error "TypeError: not subscriptable"

/-- Truncation toward zero, the behaviour of Python `int()` on a float. -/
def ratTrunc (q : ℚ) : Int :=
  if 0 ≤ q then ⌊q⌋ else ⌈q⌉

/-- Digit-sequence accumulator for decimal string parsing. -/
def parseDigitsAux : List Char → Nat → Option Nat
  | [], acc => some acc
  | c :: t, acc =>
      if '0' ≤ c ∧ c ≤ '9' then
        parseDigitsAux t (acc * 10 + (c.toNat - '0'.toNat))
      else none

/-- A nonempty all-digit character sequence as a natural number. -/
def parseNatChars : List Char → Option Nat
  | [] => none
  | cs => parseDigitsAux cs 0

/-- Python `int(s)` on a string: an optional sign followed by decimal
digits (surrounding whitespace and `_` separators, which Python also
accepts but which never occur in the data at hand, are not modelled). -/
def pyStrToInt (s : String) : Option Int :=
  match s.data with
  | '-' :: rest => (parseNatChars rest).map (fun n => -(n : Int))
  | '+' :: rest => (parseNatChars rest).map (fun n => (n : Int))
  | cs => (parseNatChars cs).map (fun n => (n : Int))

/-- Python `int(v)`: numbers truncate toward zero, booleans give 0/1,
decimal strings parse, everything else raises. -/
def pyInt (v : JValue) : Except String Int :=
  match v with
  | .jnum q => .ok (ratTrunc q)
  | .jbool b => .ok (if b then 1 else 0)
  | .jstr s =>
      match pyStrToInt s with
      | some n => .ok n
      | none => .error ("ValueError: invalid literal for int: " ++ s)
  | _ => .error "TypeError: int() argument"

/-- Python numeric subtraction; the scripts only ever subtract the numeric
statistics fields, so non-numeric operands raise `TypeError` (string/list
repetition and concatenation do not occur at subtraction sites). -/
def pySub (a b : JValue) : Except String JValue :=
  match a, b with
  | .jnum x, .jnum y => .ok (.jnum (x - y))
  | _, _ => .error "TypeError: unsupported operand for -"

/-- Python numeric multiplication (as used in `shooting_pct * 100`);
non-numeric operands raise (the code never multiplies sequences, so
sequence repetition, which would also end in a `TypeError` at the
subsequent `round`, is folded into the same error). -/
def pyMul (a b : JValue) : Except String JValue :=
  match a, b with
  | .jnum x, .jnum y => .ok (.jnum (x * y))
  | _, _ => .error "TypeError: unsupported operand for *"

/-- Python string concatenation `a + b` where both sides must be `str`. -/
def pyStrConcat (a b : JValue) : Except String JValue :=
  match a, b with
  | .jstr x, .jstr y => .ok (.jstr (x ++ y))
  | _, _ => .error "TypeError: unsupported operand for +"

/-- Round half to even on exact rationals (Python's `round` on an exact
value). -/
def roundHalfEven (q : ℚ) : Int :=
  let f : Int := ⌊q⌋
  let frac : ℚ := q - f
  if frac < 1/2 then f
  else if 1/2 < frac then f + 1
  else if f % 2 = 0 then f else f + 1

/-- Python `round(v, 1)`: round to one decimal digit, half to even;
non-numeric operands raise `TypeError`. -/
def pyRound1 (v : JValue) : Except String JValue :=
  match v with
  | .jnum q => .ok (.jnum ((roundHalfEven (q * 10) : ℚ) / 10))
  | _ => .error "TypeError: round() argument"

/-- Python comparison `v > 0` (only ever evaluated on a number produced by
`pySub` in this code). -/
def pyGtZero : JValue → Except String Bool
  | .jnum q => .ok (decide (0 < q))
  | _ => .error "TypeError: comparison"

/-- Python comparison `v < 0`. -/
def pyLtZero : JValue → Except String Bool
  | .jnum q => .ok (decide (q < 0))
  | _ => .error "TypeError: comparison"

/-! ## Identifier Resolver: `lookup_player_id`

The result of one HTTP request made with `requests.get(..., timeout=...)`
followed by `response.raise_for_status()` and `response.json()`:
either the timeout elapses, some request-level error occurs
(connection failure, non-2xx status via `raise_for_status`, unparsable
body), or a parsed JSON body is obtained. -/
inductive HttpOutcome where
  | timeout : HttpOutcome
  | reqError : String → HttpOutcome
  | success : JValue → HttpOutcome

/-- Body of `lookup_player_id` in ex04_mcp_server.py after the response has
been parsed (the part of the `try` block that inspects `data`):

    if data and len(data) > 0:
        player_id = data[0].get("playerId")
        return int(player_id) if player_id else None
    return None
-/
def lookupBody04 (data : JValue) : Except String (Option Int) := do
  if data.truthy then
    let n ← pyLen data
    if 0 < n then
      let first ← pyIndexZero data
      let pid ← pyGet first "playerId"
      if pid.truthy then
        let i ← pyInt pid
        pure (some i)
      else
        pure none
    else
      pure none
  else
    pure none

/-- `lookup_player_id` of ex04_mcp_server.py as a function of the outcome of
its single HTTP request: the surrounding `try/except Exception` turns a
timeout, a request error, or any exception raised while inspecting the body
into `return None` (after printing the error, not modelled). -/
def lookup_player_id_ex04 (o : HttpOutcome) : Option Int :=
  match o with
  | .timeout => none
  | .reqError _ => none
  | .success data =>
      match lookupBody04 data with
      | .ok v => v
      | .error _ => none

/-- Body of `lookup_player_id` in ex02_function_calling.py (no `int`
conversion — the raw value of the `playerId` field is returned):

    if data and len(data) > 0:
        return data[0].get("playerId")
    return None
-/
def lookupBody02 (data : JValue) : Except String JValue := do
  if data.truthy then
    let n ← pyLen data
    if 0 < n then
      let first ← pyIndexZero data
      pyGet first "playerId"
    else
      pure .jnull
  else
    pure .jnull

/-- `lookup_player_id` of ex02_function_calling.py as a function of the
outcome of its HTTP request.  Python `None` is `JValue.jnull`; despite the
`Optional[int]` annotation the function returns whatever JSON value sits in
the `playerId` field. -/
def lookup_player_id_ex02 (o : HttpOutcome) : JValue :=
  match o with
  | .timeout => .jnull
  | .reqError _ => .jnull
  | .success data =>
      match lookupBody02 data with
      | .ok v => v
      | .error _ => .jnull

/-! ## The `functools.lru_cache(maxsize=128)` wrapper

Both scripts decorate `lookup_player_id` with `@lru_cache(maxsize=128)`.
`lru_cache` memoizes every returned value — successes and `None`s alike —
keyed by the exact argument tuple; on a hit the entry moves to the
most-recently-used position, on a miss the underlying function runs once
and its result is inserted, evicting the least-recently-used entry beyond
`maxsize`. -/

/-- Cache state: entries in most-recently-used-first order. -/
structure LruCache (α : Type) where
  entries : List (String × α)

/-- One call through the `lru_cache` wrapper around a unary function `f`.
Returns the call's result, the new cache state, and whether the underlying
function ran (i.e. whether a network request was issued). -/
def cachedCall {α : Type} (maxsize : Nat) (f : String → α)
    (c : LruCache α) (q : String) : α × LruCache α × Bool :=
  match alookup c.entries q with
  | some v => (v, ⟨(q, v) :: (c.entries.filter (fun e => e.1 ≠ q))⟩, false)
  | none =>
      let v := f q
      (v, ⟨((q, v) :: c.entries).take maxsize⟩, true)

/-- The memoized `lookup_player_id` of ex04_mcp_server.py: `net` is the
search service (query string to HTTP outcome). -/
def cachedLookup04 (net : String → HttpOutcome) (c : LruCache (Option Int))
    (q : String) : Option Int × LruCache (Option Int) × Bool :=
  cachedCall 128 (fun s => lookup_player_id_ex04 (net s)) c q

/-! ## Entity Data Fetcher: `get_player_stats` -/

/-- The dictionary `get_player_stats` returns: a Python dict with string
keys holding whatever JSON values were extracted. -/
def StatsRecord : Type := List (String × JValue)

/-- The extraction performed by `get_player_stats` of ex04_mcp_server.py on
a parsed landing document `data` (the body of the `try` block after
`response.json()`), building the result dict entry by entry in source
order.  `season_totals` is
`data.get("featuredStats", {}).get("regularSeason", {}).get("subSeason", {})`. -/
def extractStats04 (data : JValue) : Except String StatsRecord := do
  let fs ← pyGetD data "featuredStats" (.jobj [])
  let rs ← pyGetD fs "regularSeason" (.jobj [])
  let st ← pyGetD rs "subSeason" (.jobj [])
  let fn ← pyGetD data "firstName" (.jobj [])
  let fnd ← pyGetD fn "default" (.jstr "")
  let ln ← pyGetD data "lastName" (.jobj [])
  let lnd ← pyGetD ln "default" (.jstr "")
  let pname ← pyStrConcat (← pyStrConcat fnd (.jstr " ")) lnd
  let team ← pyGetD data "currentTeamAbbrev" (.jstr "Unknown")
  let pos ← pyGetD data "position" (.jstr "Unknown")
  let gp ← pyGetD st "gamesPlayed" (.jnum 0)
  let goals ← pyGetD st "goals" (.jnum 0)
  let assists ← pyGetD st "assists" (.jnum 0)
  let points ← pyGetD st "points" (.jnum 0)
  let shots ← pyGetD st "shots" (.jnum 0)
  let spRaw ← pyGetD st "shootingPctg" (.jnum 0)
  let spScaled ← pyMul spRaw (.jnum 100)
  let sp ← pyRound1 spScaled
  let ppg ← pyGetD st "powerPlayGoals" (.jnum 0)
  let ppp ← pyGetD st "powerPlayPoints" (.jnum 0)
  let shg ← pyGetD st "shorthandedGoals" (.jnum 0)
  let shp ← pyGetD st "shorthandedPoints" (.jnum 0)
  let gwg ← pyGetD st "gameWinningGoals" (.jnum 0)
  let otg ← pyGetD st "otGoals" (.jnum 0)
  let pm ← pyGetD st "plusMinus" (.jnum 0)
  let pim ← pyGetD st "pim" (.jnum 0)
  pure [("player_name", pname), ("team", team), ("position", pos),
        ("games_played", gp), ("goals", goals), ("assists", assists),
        ("points", points), ("shots", shots), ("shooting_pct", sp),
        ("power_play_goals", ppg), ("power_play_points", ppp),
        ("shorthanded_goals", shg), ("shorthanded_points", shp),
        ("game_winning_goals", gwg), ("ot_goals", otg),
        ("plus_minus", pm), ("penalty_minutes", pim)]

/-- The extraction performed by `get_player_stats` of
ex02_function_calling.py: same fields, but `team` is read from
`season_totals` with default `"N/A"`, `position` defaults to `"N/A"`, and
`shooting_pct` is `round(season_totals.get("shootingPctg", 0.0), 1)`
without the `* 100` scaling. -/
def extractStats02 (data : JValue) : Except String StatsRecord := do
  let fs ← pyGetD data "featuredStats" (.jobj [])
  let rs ← pyGetD fs "regularSeason" (.jobj [])
  let st ← pyGetD rs "subSeason" (.jobj [])
  let fn ← pyGetD data "firstName" (.jobj [])
  let fnd ← pyGetD fn "default" (.jstr "")
  let ln ← pyGetD data "lastName" (.jobj [])
  let lnd ← pyGetD ln "default" (.jstr "")
  let pname ← pyStrConcat (← pyStrConcat fnd (.jstr " ")) lnd
  let team ← pyGetD st "teamAbbrev" (.jstr "N/A")
  let pos ← pyGetD data "position" (.jstr "N/A")
  let gp ← pyGetD st "gamesPlayed" (.jnum 0)
  let goals ← pyGetD st "goals" (.jnum 0)
  let assists ← pyGetD st "assists" (.jnum 0)
  let points ← pyGetD st "points" (.jnum 0)
  let shots ← pyGetD st "shots" (.jnum 0)
  let spRaw ← pyGetD st "shootingPctg" (.jnum 0)
  let sp ← pyRound1 spRaw
  let ppg ← pyGetD st "powerPlayGoals" (.jnum 0)
  let ppp ← pyGetD st "powerPlayPoints" (.jnum 0)
  let shg ← pyGetD st "shorthandedGoals" (.jnum 0)
  let shp ← pyGetD st "shorthandedPoints" (.jnum 0)
  let gwg ← pyGetD st "gameWinningGoals" (.jnum 0)
  let otg ← pyGetD st "otGoals" (.jnum 0)
  let pm ← pyGetD st "plusMinus" (.jnum 0)
  let pim ← pyGetD st "pim" (.jnum 0)
  pure [("player_name", pname), ("team", team), ("position", pos),
        ("games_played", gp), ("goals", goals), ("assists", assists),
        ("points", points), ("shots", shots), ("shooting_pct", sp),
        ("power_play_goals", ppg), ("power_play_points", ppp),
        ("shorthanded_goals", shg), ("shorthanded_points", shp),
        ("game_winning_goals", gwg), ("ot_goals", otg),
        ("plus_minus", pm), ("penalty_minutes", pim)]

/-- The fetch half of `get_player_stats` (ex04): given the already-resolved
`player_id` and the stats service `net`, one HTTP round trip whose
`try/except Exception` re-raises every failure as
`ValueError(f"Error fetching stats for player ID {player_id}: {e}")`.
The string a timeout exception renders to is modelled as `"ReadTimeout"`. -/
def fetchStats04 (net : Int → HttpOutcome) (pid : Int) :
    Except String StatsRecord :=
  let wrap : String → String := fun e =>
    "Error fetching stats for player ID " ++ toString pid ++ ": " ++ e
  match net pid with
  | .timeout => .error (wrap "ReadTimeout")
  | .reqError m => .error (wrap m)
  | .success data =>
      match extractStats04 data with
      | .ok r => .ok r
      | .error e => .error (wrap e)

/-- Same for ex02_function_calling.py. -/
def fetchStats02 (net : Int → HttpOutcome) (pid : Int) :
    Except String StatsRecord :=
  let wrap : String → String := fun e =>
    "Error fetching stats for player ID " ++ toString pid ++ ": " ++ e
  match net pid with
  | .timeout => .error (wrap "ReadTimeout")
  | .reqError m => .error (wrap m)
  | .success data =>
      match extractStats02 data with
      | .ok r => .ok r
      | .error e => .error (wrap e)

/-- `get_player_stats` of ex04_mcp_server.py as a function of the resolver
result and the stats service.  The guard is Python
`if not player_id: raise ValueError(f"Player '{player_name}' not found")`:
`None` and the integer `0` are both falsy, so both take the not-found
branch (raised outside the `try`, hence not wrapped). -/
def get_player_stats_ex04 (lookupResult : Option Int)
    (net : Int → HttpOutcome) (player_name : String) :
    Except String StatsRecord :=
  match lookupResult with
  | none => .error ("Player '" ++ player_name ++ "' not found")
  | some pid =>
      if pid = 0 then .error ("Player '" ++ player_name ++ "' not found")
      else fetchStats04 net pid

/-- `get_player_stats` of ex02_function_calling.py.  There the resolver
returns a raw JSON value, and `if not player_id:` tests its Python
truthiness; the subsequent URL interpolation works for any value, so the
resolved value is rendered with `pyIdStr` (only ever applied to an integer
in the theorems below). -/
def pyIdStr : JValue → String
  | .jnull => "None"
  | .jbool b => if b then "True" else "False"
  | .jnum q => if q.den = 1 then toString q.num else toString q
  | .jstr s => s
  | .jlist _ => "[...]"
  | .jobj _ => "{...}"

/-- The fetch half of ex02 keyed by the raw resolved value (used only for
the URL/error string). -/
def fetchStats02Raw (net : Int → HttpOutcome) (pid : JValue) :
    Except String StatsRecord :=
  let wrap : String → String := fun e =>
    "Error fetching stats for player ID " ++ pyIdStr pid ++ ": " ++ e
  match pyInt pid with
  | .ok n =>
      (match net n with
       | .timeout => .error (wrap "ReadTimeout")
       | .reqError m => .error (wrap m)
       | .success data =>
           match extractStats02 data with
           | .ok r => .ok r
           | .error e => .error (wrap e))
  | .error _ =>
      -- a non-integer id still produces a URL string; the request for it
      -- fails and the except-clause wraps the failure
      .error (wrap "HTTPError")

def get_player_stats_ex02 (lookupResult : JValue)
    (net : Int → HttpOutcome) (player_name : String) :
    Except String StatsRecord :=
  if lookupResult.truthy then fetchStats02Raw net lookupResult
  else .error ("Player '" ++ player_name ++ "' not found")

/-- The full public entry point of ex04: resolve the name through the
search service, then fetch.  (The `lru_cache` layer is orthogonal and
modelled separately; on a cold cache the underlying resolver runs.) -/
def get_player_stats_full_ex04 (searchNet : String → HttpOutcome)
    (statsNet : Int → HttpOutcome) (name : String) :
    Except String StatsRecord :=
  get_player_stats_ex04 (lookup_player_id_ex04 (searchNet name)) statsNet name

/-- The full entry point of ex02. -/
def get_player_stats_full_ex02 (searchNet : String → HttpOutcome)
    (statsNet : Int → HttpOutcome) (name : String) :
    Except String StatsRecord :=
  get_player_stats_ex02 (lookup_player_id_ex02 (searchNet name)) statsNet name

/-! ## Comparator: `compare_players` (ex04_mcp_server.py) -/

/-- The fixed ordered list `numeric_fields` from `compare_players`. -/
def numericFields : List String :=
  ["games_played", "goals", "assists", "points", "shots", "shooting_pct",
   "power_play_goals", "power_play_points", "shorthanded_goals",
   "shorthanded_points", "game_winning_goals", "ot_goals", "plus_minus",
   "penalty_minutes"]

/-- One per-field comparison entry.  The source builds a dict
`{name1: p1_val, name2: p2_val, "difference": d, "leader": l}` keyed by the
two player-name values; the four values are recorded here positionally
(`difference` and `leader` are the fields the specification speaks about). -/
structure CompEntry where
  val1 : JValue
  val2 : JValue
  difference : JValue
  leader : JValue

/-- The body of the `for field in numeric_fields:` loop of
`compare_players` for one field:

    p1_val = player1_stats.get(field, 0)
    p2_val = player2_stats.get(field, 0)
    difference = p1_val - p2_val
    comparison[field] = {
        player1_stats["player_name"]: p1_val,
        player2_stats["player_name"]: p2_val,
        "difference": difference,
        "leader": player1_stats["player_name"] if difference > 0 else
                 player2_stats["player_name"] if difference < 0 else "tied"}
-/
def compareField (r1 r2 : StatsRecord) (f : String) :
    Except String CompEntry := do
  let p1 := (alookup r1 f).getD (.jnum 0)
  let p2 := (alookup r2 f).getD (.jnum 0)
  let d ← pySub p1 p2
  let n1 ← pySubscript (.jobj r1) "player_name"
  let n2 ← pySubscript (.jobj r2) "player_name"
  let gt ← pyGtZero d
  let leader ← do
    if gt then
      pure n1
    else
      let lt ← pyLtZero d
      if lt then pure n2 else pure (JValue.jstr "tied")
  pure { val1 := p1, val2 := p2, difference := d, leader := leader }

/-- Sequential `Except`-valued map over a list (the effect of a Python
`for` loop that builds up a list, failing at the first raised exception). -/
def exceptMapList {α β : Type} (f : α → Except String β) :
    List α → Except String (List β)
  | [] => .ok []
  | a :: t => do
      let b ← f a
      let bs ← exceptMapList f t
      pure (b :: bs)

/-- The comparison-building loop of `compare_players`: one entry per
numeric field, in the fixed order. -/
def comparePlayersLoop (r1 r2 : StatsRecord) :
    Except String (List (String × CompEntry)) :=
  exceptMapList (fun f => do
    let e ← compareField r1 r2 f
    pure (f, e)) numericFields

/-- Well-formedness of a stats record as far as `compare_players` consumes
it: every numeric field is either absent or holds a number, and the
`player_name` key is present (its value is used as a dict key and as the
leader tag). -/
def recordOK (r : StatsRecord) : Bool :=
  (numericFields.all fun f =>
    match alookup r f with
    | none => true
    | some v => v.isNum) && (alookup r "player_name").isSome

/-- The numeric value `r.get(f, 0)` denotes under `recordOK`. -/
def numValD (r : StatsRecord) (f : String) : ℚ :=
  match alookup r f with
  | some (.jnum q) => q
  | _ => 0

/-- The `player_name` value of a record (defined when `recordOK`). -/
def recName (r : StatsRecord) : JValue :=
  (alookup r "player_name").getD .jnull

/-! ## Schema Generator: `openapi_to_tools` (ex03_openapi_tools.py) -/

/-- A generated Anthropic tool definition.  `name` and `description` hold
whatever values the spec document supplies (the code does not coerce them);
`properties` is the insertion-ordered `input_schema.properties` dict and
`required` the `input_schema.required` list. -/
structure ToolDef where
  name : JValue
  description : JValue
  properties : List (String × JValue)
  required : List JValue

/-- The HTTP method allow-list of `openapi_to_tools`. -/
def httpMethods : List String := ["get", "post", "put", "delete", "patch"]

/-- Python `list(v)` as used for `for param in parameters:` — the
`parameters` value of a real OpenAPI operation is a list; iterating any
non-list raises here (Python would iterate strings and dicts differently,
but every such path ends in an uncaught exception inside the loop as
well). -/
def pyToList : JValue → Except String (List JValue)
  | .jlist xs => .ok xs
  | _ => .error "TypeError: not iterable"

/-- Python `.items()` on a dict (used for `paths.items()` and
`path_item.items()`). -/
def pyItems : JValue → Except String (List (String × JValue))
  | .jobj fs => .ok fs
  | _ => .error "AttributeError: no attribute items"

/-- The parameter loop of `openapi_to_tools`, threading the `properties`
dict and `required` list:

    for param in parameters:
        param_name = param["name"]
        param_schema = param.get("schema", {"type": "string"})
        tool["input_schema"]["properties"][param_name] = {
            "type": param_schema.get("type", "string"),
            "description": param.get("description", "")}
        if param.get("required", False):
            tool["input_schema"]["required"].append(param_name)

A `param["name"]` value that is not a string cannot be represented as a
key of the (string-keyed) `properties` model and raises here; every
theorem below instantiates it with a string. -/
def buildParams : List JValue → List (String × JValue) → List JValue →
    Except String (List (String × JValue) × List JValue)
  | [], props, reqs => .ok (props, reqs)
  | p :: rest, props, reqs => do
      let pname ← pySubscript p "name"
      let pnameStr ←
        match pname with
        | .jstr s => Except.ok s
        | _ => Except.error "TypeError: unhashable/non-string key"
      let pschema ← pyGetD p "schema" (.jobj [("type", .jstr "string")])
      let ptype ← pyGetD pschema "type" (.jstr "string")
      let pdesc ← pyGetD p "description" (.jstr "")
      let props := assocSet props pnameStr
        (.jobj [("type", ptype), ("description", pdesc)])
      let preq ← pyGetD p "required" (.jbool false)
      let reqs := if preq.truthy then reqs ++ [pname] else reqs
      buildParams rest props reqs

/-- Building one tool from an operation:

    tool = {"name": operation.get("operationId",
                                  f"{method}_{path.replace('/', '_')}"),
            "description": operation.get("description",
                                         operation.get("summary", "")),
            "input_schema": {"type": "object", "properties": {},
                             "required": []}}
    ... parameter loop ...
-/
def buildTool (path method : String) (operation : JValue) :
    Except String ToolDef := do
  let summary ← pyGetD operation "summary" (.jstr "")
  let name ← pyGetD operation "operationId"
    (.jstr (method ++ "_" ++ path.replace "/" "_"))
  let descr ← pyGetD operation "description" summary
  let params ← pyGetD operation "parameters" (.jlist [])
  let paramList ← pyToList params
  let (props, reqs) ← buildParams paramList [] []
  pure { name := name, description := descr,
         properties := props, required := reqs }

/-- The inner loop over one path item
(`for method, operation in path_item.items():` with the allow-list
`continue`). -/
def toolsOfPathItem (path : String) :
    List (String × JValue) → Except String (List ToolDef)
  | [] => .ok []
  | (method, op) :: rest =>
      if method ∈ httpMethods then do
        let t ← buildTool path method op
        let ts ← toolsOfPathItem path rest
        pure (t :: ts)
      else
        toolsOfPathItem path rest

/-- The outer loop over `paths.items()`. -/
def toolsOfPaths : List (String × JValue) → Except String (List ToolDef)
  | [] => .ok []
  | (p, item) :: rest => do
      let ops ← pyItems item
      let ts ← toolsOfPathItem p ops
      let rest' ← toolsOfPaths rest
      pure (ts ++ rest')

/-- `openapi_to_tools` applied to the already-parsed specification document
(`yaml.safe_load` has succeeded; a YAML syntax error raises
`ValueError` before this point and is outside this model). -/
def openapi_to_tools (spec : JValue) : Except String (List ToolDef) := do
  let paths ← pyGetD spec "paths" (.jobj [])
  let items ← pyItems paths
  toolsOfPaths items

/-- Specification-side description of the generator (for the refinement
theorem of the ordering/allow-list claim): for every operation whose method
is on the allow-list, one tool, in source-document order; operations with
other methods are skipped. -/
def specTools (paths : List (String × JValue)) :
    Except String (List ToolDef) := do
  let ls ← exceptMapList (fun pi => do
    let ops ← pyItems pi.2
    exceptMapList (fun mo => buildTool pi.1 mo.1 mo.2)
      (ops.filter (fun mo => mo.1 ∈ httpMethods))) paths
  pure ls.flatten

/-! ## Tool Dispatcher and Agent Loop step (`run_agent`,
ex02_function_calling.py) -/

/-- The `input` mapping of a tool-use request. -/
def ToolInput : Type := List (String × JValue)

/-- A content block of a model response: a text block or a tool-use block
(`block.type == "tool_use"` discriminates them). -/
inductive Block where
  | text : String → Block
  | toolUse : (id name : String) → (input : ToolInput) → Block

/-- `block.type == "tool_use"`. -/
def Block.isToolUse : Block → Bool
  | .toolUse _ _ _ => true
  | .text _ => false

/-- A model response: the `stop_reason` discriminator and the content
blocks. -/
structure ModelResponse where
  stop_reason : String
  content : List Block

/-- A turn of the conversation history `messages`.  The assistant turn
carries the model's content blocks verbatim
(`{"role": "assistant", "content": response.content}`); a tool-result turn
is the single-element user message
`{"type": "tool_result", "tool_use_id": ..., "content": ..., "is_error": ...}`. -/
inductive Turn where
  | user : String → Turn
  | assistant : List Block → Turn
  | toolResult : (tool_use_id content : String) → (is_error : Bool) → Turn

/-- The inline tool dispatch of `run_agent`:

    try:
        if tool_use.name == "get_player_stats":
            result = get_player_stats(**tool_use.input)
            result_content = json.dumps(result, indent=2)
            is_error = False
        else:
            result_content = f"Unknown tool: {tool_use.name}"
            is_error = True
    except Exception as e:
        result_content = f"Error: {str(e)}"
        is_error = True

`runGPS` models `json.dumps(get_player_stats(**input), indent=2)` — the
whole registered-tool branch inside the `try`, including a `TypeError`
from keyword unpacking; its `Except` error is the rendered exception
message `str(e)`. -/
def dispatch (runGPS : ToolInput → Except String String)
    (name : String) (input : ToolInput) : String × Bool :=
  let attempt : Except String (String × Bool) :=
    if name = "get_player_stats" then
      match runGPS input with
      | .ok s => .ok (s, false)
      | .error e => .error e
    else
      .ok ("Unknown tool: " ++ name, true)
  match attempt with
  | .ok v => v
  | .error e => ("Error: " ++ e, true)

/-- One iteration of the `while True:` loop of `run_agent`, given the
model's response for the current history: either the loop continues with
an extended history (`Sum.inl`) or returns the final text (`Sum.inr`).
`next(block for block in response.content if block.type == "tool_use")`
raises `StopIteration` when no tool-use block exists, and the terminal
branch reads `response.content[0].text`; both escape the loop as uncaught
exceptions, hence the `Except` layer. -/
def agentStep (runGPS : ToolInput → Except String String)
    (messages : List Turn) (resp : ModelResponse) :
    Except String (List Turn ⊕ String) :=
  if resp.stop_reason = "tool_use" then
    match resp.content.find? Block.isToolUse with
    | some (.toolUse i n inp) =>
        let r := dispatch runGPS n inp
        .ok (.inl (messages ++
          [Turn.assistant resp.content, Turn.toolResult i r.1 r.2]))
    | _ => .error "StopIteration"
  else
    match resp.content with
    | .text s :: _ => .ok (.inr s)
    | .toolUse _ _ _ :: _ => .error "AttributeError: no attribute text"
    | [] => .error "IndexError"

/-! ## Statement-side descriptions of declared parameters (for the
per-operation field claims about the Schema Generator) -/

/-- A declared parameter of an operation, as the claims describe one:
a name, an optional schema (which may itself omit the type), an optional
description, and the required flag. -/
structure PDecl where
  pname : String
  pschema : Option (Option String)
  pdescr : Option String
  preq : Bool

/-- The OpenAPI (YAML) encoding of such a parameter declaration. -/
def PDecl.encode (d : PDecl) : JValue :=
  .jobj ([("name", .jstr d.pname)]
    ++ (match d.pschema with
        | none => []
        | some none => [("schema", .jobj [])]
        | some (some t) => [("schema", .jobj [("type", .jstr t)])])
    ++ (match d.pdescr with
        | none => []
        | some s => [("description", .jstr s)])
    ++ [("required", .jbool d.preq)])

/-- The declared type, defaulting to `"string"` when the schema or its
`type` entry is unspecified. -/
def PDecl.resolvedType (d : PDecl) : String :=
  match d.pschema with
  | some (some t) => t
  | _ => "string"

/-- The `properties` entry the generator is claimed to produce for a
declared parameter. -/
def PDecl.propObj (d : PDecl) : JValue :=
  .jobj [("type", .jstr d.resolvedType),
         ("description", .jstr (d.pdescr.getD ""))]

/-! # Theorems -/

@[simp]
theorem except_bind_ok {ε α β : Type} (a : α) (f : α → Except ε β) :
    (Except.ok a >>= f : Except ε β) = f a := rfl

@[simp]
theorem except_bind_error {ε α β : Type} (e : ε) (f : α → Except ε β) :
    (Except.error e >>= f : Except ε β) = Except.error e := rfl

@[simp]
theorem except_map_ok {ε α β : Type} (g : α → β) (a : α) :
    (g <$> (Except.ok a : Except ε α)) = Except.ok (g a) := rfl

@[simp]
theorem except_map_error {ε α β : Type} (g : α → β) (e : ε) :
    (g <$> (Except.error e : Except ε α)) = Except.error e := rfl

@[simp]
theorem except_pure {ε α : Type} (a : α) :
    (pure a : Except ε α) = Except.ok a := rfl

@[simp]
theorem roundHalfEven_zero : roundHalfEven 0 = 0 := by
  unfold roundHalfEven
  norm_num

@[simp]
theorem pyMul_zero_hundred : pyMul (.jnum 0) (.jnum 100) = .ok (.jnum 0) := by
  simp [pyMul]

@[simp]
theorem pyRound1_zero : pyRound1 (.jnum 0) = .ok (.jnum 0) := by
  simp [pyRound1]

/-- C8: `lookup_player_id` never raises to its caller: by construction its
model is total with result type `Option Int` (ex04) / `JValue` (ex02), and
every failure mode — timeout, request error, an exception raised anywhere
inside the `try` body, or an empty match list — yields `None`
(the "not found" degradation; the `print` logging is not modelled). -/
theorem c8_resolver_never_raises :
    (lookup_player_id_ex04 .timeout = none) ∧
    (∀ m, lookup_player_id_ex04 (.reqError m) = none) ∧
    (∀ data e, lookupBody04 data = .error e →
      lookup_player_id_ex04 (.success data) = none) ∧
    (lookup_player_id_ex04 (.success (.jlist [])) = none) ∧
    (lookup_player_id_ex02 .timeout = .jnull) ∧
    (∀ m, lookup_player_id_ex02 (.reqError m) = .jnull) ∧
    (∀ data e, lookupBody02 data = .error e →
      lookup_player_id_ex02 (.success data) = .jnull) ∧
    (lookup_player_id_ex02 (.success (.jlist [])) = .jnull) := by
  refine ⟨rfl, fun m => rfl, fun data e h => ?_, rfl, rfl, fun m => rfl,
    fun data e h => ?_, rfl⟩
  · simp [lookup_player_id_ex04, h]
  · simp [lookup_player_id_ex02, h]

/-- Witness for C8: a body the inner code raises on (`len` of a number) and
a timeout, both degrade to "not found". -/
theorem c8_witness :
    lookup_player_id_ex04 (.success (.jnum 5)) = none ∧
    lookup_player_id_ex02 (.success (.jnum 5)) = .jnull ∧
    lookup_player_id_ex04 .timeout = none :=
  ⟨c8_resolver_never_raises.2.2.1 (.jnum 5)
      "TypeError: object has no len" rfl,
   c8_resolver_never_raises.2.2.2.2.2.2.1 (.jnum 5)
      "TypeError: object has no len" rfl,
   c8_resolver_never_raises.1⟩

/-- C2 is false as stated for ex02_function_calling.py: its
`lookup_player_id` returns `data[0].get("playerId")` with no `int`
coercion, so a first candidate whose identifier is delivered as the string
`"8478402"` makes resolve return that string, not an integer. -/
theorem c2_counterexample :
    lookup_player_id_ex02
      (.success (.jlist [.jobj [("playerId", .jstr "8478402")]]))
      = .jstr "8478402" ∧
    (JValue.jstr "8478402").isNum = false :=
  ⟨rfl, rfl⟩

/-- C2 amended: on a search response with at least one candidate, the MCP
server's resolver (ex04) returns the first candidate's `playerId` coerced
to an integer whether it arrives as a (truthy) string or a nonzero number,
while the function-calling example's resolver (ex02) returns the raw field
value uncoerced. -/
theorem c2_amended_first_candidate_id :
    ∀ (fields : List (String × JValue)) (rest : List JValue),
      (∀ q : ℚ, alookup fields "playerId" = some (.jnum q) → q ≠ 0 →
        lookup_player_id_ex04 (.success (.jlist (.jobj fields :: rest)))
          = some (ratTrunc q)) ∧
      (∀ s n, alookup fields "playerId" = some (.jstr s) → s ≠ "" →
        pyStrToInt s = some n →
        lookup_player_id_ex04 (.success (.jlist (.jobj fields :: rest)))
          = some n) ∧
      (∀ pid, alookup fields "playerId" = some pid →
        lookup_player_id_ex02 (.success (.jlist (.jobj fields :: rest)))
          = pid) := by
  intro fields rest
  have hp : 0 < rest.length + 1 := Nat.succ_pos _
  refine ⟨fun q h hq => ?_, fun s n h hs hn => ?_, fun pid h => ?_⟩
  · simp [lookup_player_id_ex04, lookupBody04, JValue.truthy, pyLen,
      pyIndexZero, pyGet, h, pyInt, hq, hp]
  · simp [lookup_player_id_ex04, lookupBody04, JValue.truthy, pyLen,
      pyIndexZero, pyGet, h, pyInt, hs, hn, hp]
  · simp [lookup_player_id_ex02, lookupBody02, JValue.truthy, pyLen,
      pyIndexZero, pyGet, h, hp]

/-- Witness for C2 (amended): the documented Connor McDavid id, delivered
as a string, is coerced by ex04 and passed through raw by ex02. -/
theorem c2_amended_witness :
    lookup_player_id_ex04
      (.success (.jlist [.jobj [("playerId", .jstr "8478402")]]))
      = some 8478402 ∧
    lookup_player_id_ex02
      (.success (.jlist [.jobj [("playerId", .jnum 8478402)]]))
      = .jnum 8478402 :=
  ⟨(c2_amended_first_candidate_id [("playerId", .jstr "8478402")] []).2.1
      "8478402" 8478402 rfl (by decide) (by decide),
   (c2_amended_first_candidate_id [("playerId", .jnum 8478402)] []).2.2
      (.jnum 8478402) rfl⟩

/-- C4: the inline tool dispatch of `run_agent` never raises — it is a
total function returning `{content, is_error}` — and: an unregistered tool
name yields content `"Unknown tool: {name}"` with `is_error = true`; an
exception `m` from the registered tool's body yields `"Error: {m}"` with
`is_error = true`; a successful tool run yields its serialized output with
`is_error = false`. -/
theorem c4_dispatch_never_raises :
    ∀ (runGPS : ToolInput → Except String String) (name : String)
      (input : ToolInput),
      (name ≠ "get_player_stats" →
        dispatch runGPS name input = ("Unknown tool: " ++ name, true)) ∧
      (∀ m, runGPS input = .error m →
        dispatch runGPS "get_player_stats" input = ("Error: " ++ m, true)) ∧
      (∀ s, runGPS input = .ok s →
        dispatch runGPS "get_player_stats" input = (s, false)) := by
  intro runGPS name input
  refine ⟨fun h => ?_, fun m h => ?_, fun s h => ?_⟩
  · simp [dispatch, h]
  · simp [dispatch, h]
  · simp [dispatch, h]

/-- Witness for C4: the three outcomes at concrete inputs. -/
theorem c4_witness :
    dispatch (fun _ => .ok "ok") "frobnicate" []
      = ("Unknown tool: frobnicate", true) ∧
    dispatch (fun _ => .error "Player 'X' not found") "get_player_stats" []
      = ("Error: Player 'X' not found", true) ∧
    dispatch (fun _ => .ok "stats-json") "get_player_stats" []
      = ("stats-json", false) :=
  ⟨(c4_dispatch_never_raises (fun _ => .ok "ok") "frobnicate" []).1
      (by decide),
   (c4_dispatch_never_raises (fun _ => .error "Player 'X' not found")
      "get_player_stats" []).2.1 "Player 'X' not found" rfl,
   (c4_dispatch_never_raises (fun _ => .ok "stats-json")
      "get_player_stats" []).2.2 "stats-json" rfl⟩

/-- C10 is false as stated: in ex02_function_calling.py the resolver
performs no coercion, so a backend identifier 0 delivered as the string
`"0"` is truthy, passes the `if not player_id:` guard, and the public
entry point proceeds to fetch it — here successfully, returning a fully
defaulted record instead of the 'not found' error. -/
theorem c10_counterexample :
    lookup_player_id_ex02
      (.success (.jlist [.jobj [("playerId", .jstr "0")]])) = .jstr "0" ∧
    (JValue.jstr "0").truthy = true ∧
    get_player_stats_full_ex02
      (fun _ => .success (.jlist [.jobj [("playerId", .jstr "0")]]))
      (fun _ => .success (.jobj []))
      "Zero"
      = .ok [("player_name", .jstr " "), ("team", .jstr "N/A"),
             ("position", .jstr "N/A"), ("games_played", .jnum 0),
             ("goals", .jnum 0), ("assists", .jnum 0),
             ("points", .jnum 0), ("shots", .jnum 0),
             ("shooting_pct", .jnum 0), ("power_play_goals", .jnum 0),
             ("power_play_points", .jnum 0), ("shorthanded_goals", .jnum 0),
             ("shorthanded_points", .jnum 0),
             ("game_winning_goals", .jnum 0), ("ot_goals", .jnum 0),
             ("plus_minus", .jnum 0), ("penalty_minutes", .jnum 0)] := by
  refine ⟨rfl, rfl, ?_⟩
  simp [get_player_stats_full_ex02, get_player_stats_ex02,
    lookup_player_id_ex02, lookupBody02, JValue.truthy, pyLen, pyIndexZero,
    pyGet, alookup, fetchStats02Raw, pyInt, pyStrToInt, parseNatChars,
    parseDigitsAux, extractStats02, pyGetD, pyStrConcat]

/-- C10 amended: the MCP server's resolver maps a falsy (or absent) first
candidate identifier to `None`; both fetch entry points treat a falsy
resolved identifier as not found; consequently an entity whose backend
identifier is 0 can never be fetched through the MCP server's public
interface whether the upstream delivers the id as the number `0` or the
string `"0"`, and through the function-calling example's interface when it
is delivered as a number (a string `"0"` is truthy there and slips
through — see the counterexample). -/
theorem c10_amended_zero_identifier :
    (∀ fields rest pid, alookup fields "playerId" = some pid →
      pid.truthy = false →
      lookup_player_id_ex04 (.success (.jlist (.jobj fields :: rest)))
        = none) ∧
    (∀ fields rest, alookup fields "playerId" = none →
      lookup_player_id_ex04 (.success (.jlist (.jobj fields :: rest)))
        = none) ∧
    (∀ net name, get_player_stats_ex04 none net name
      = .error ("Player '" ++ name ++ "' not found")) ∧
    (∀ net name, get_player_stats_ex04 (some 0) net name
      = .error ("Player '" ++ name ++ "' not found")) ∧
    (∀ v net name, v.truthy = false → get_player_stats_ex02 v net name
      = .error ("Player '" ++ name ++ "' not found")) ∧
    (∀ searchNet statsNet name fields rest,
      searchNet name = .success (.jlist (.jobj fields :: rest)) →
      (alookup fields "playerId" = some (.jnum 0) ∨
       alookup fields "playerId" = some (.jstr "0")) →
      get_player_stats_full_ex04 searchNet statsNet name
        = .error ("Player '" ++ name ++ "' not found")) ∧
    (∀ searchNet statsNet name fields rest,
      searchNet name = .success (.jlist (.jobj fields :: rest)) →
      alookup fields "playerId" = some (.jnum 0) →
      get_player_stats_full_ex02 searchNet statsNet name
        = .error ("Player '" ++ name ++ "' not found")) := by
  have key04 : ∀ (fields : List (String × JValue)) (rest : List JValue) pid,
      alookup fields "playerId" = some pid → pid.truthy = false →
      lookup_player_id_ex04 (.success (.jlist (.jobj fields :: rest)))
        = none := by
    intro fields rest pid h hf
    have hp : 0 < rest.length + 1 := Nat.succ_pos _
    have hd : (JValue.jlist (.jobj fields :: rest)).truthy = true := rfl
    simp [lookup_player_id_ex04, lookupBody04, hd, pyLen,
      pyIndexZero, pyGet, h, hf, hp]
  refine ⟨key04, ?_, fun net name => rfl, fun net name => rfl,
    fun v net name hf => ?_, ?_, ?_⟩
  · intro fields rest h
    have hp : 0 < rest.length + 1 := Nat.succ_pos _
    simp [lookup_player_id_ex04, lookupBody04, JValue.truthy, pyLen,
      pyIndexZero, pyGet, h, hp]
  · simp [get_player_stats_ex02, hf]
  · intro searchNet statsNet name fields rest hs hid
    unfold get_player_stats_full_ex04
    rw [hs]
    rcases hid with hid | hid
    · rw [key04 fields rest _ hid rfl]
      rfl
    · have hp : 0 < rest.length + 1 := Nat.succ_pos _
      have : lookup_player_id_ex04
          (.success (.jlist (.jobj fields :: rest))) = some 0 := by
        simp [lookup_player_id_ex04, lookupBody04, JValue.truthy, pyLen,
          pyIndexZero, pyGet, hid, hp, pyInt, pyStrToInt, parseNatChars,
          parseDigitsAux]
      rw [this]
      rfl
  · intro searchNet statsNet name fields rest hs hid
    unfold get_player_stats_full_ex02
    rw [hs]
    have hp : 0 < rest.length + 1 := Nat.succ_pos _
    have : lookup_player_id_ex02
        (.success (.jlist (.jobj fields :: rest))) = .jnum 0 := by
      simp [lookup_player_id_ex02, lookupBody02, JValue.truthy, pyLen,
        pyIndexZero, pyGet, hid, hp]
    rw [this]
    rfl

/-- Witness for C10 (amended): a first candidate carrying `playerId` as
the string `"0"` is rejected as not found by the MCP server's entry
point. -/
theorem c10_witness :
    get_player_stats_full_ex04
      (fun _ => .success (.jlist [.jobj [("playerId", .jstr "0")]]))
      (fun _ => .timeout)
      "Ghost"
      = .error "Player 'Ghost' not found" :=
  c10_amended_zero_identifier.2.2.2.2.2.1
    (fun _ => .success (.jlist [.jobj [("playerId", .jstr "0")]]))
    (fun _ => .timeout) "Ghost" [("playerId", .jstr "0")] [] rfl
    (Or.inr rfl)

/-- C1 is false as stated: `functools.lru_cache` memoizes failed
resolutions too.  With a search service that finds nothing, a first call
on a cold cache issues a network request, gets `None`, and *stores* the
`("Nemo", None)` entry; the second call with the exact same name is served
from the cache (third component `false`: no new network request), contrary
to the claim that a failed resolution leaves no entry and re-queries. -/
theorem c1_counterexample :
    cachedLookup04 (fun _ => .success (.jlist [])) ⟨[]⟩ "Nemo"
      = (none, ⟨[("Nemo", none)]⟩, true) ∧
    cachedLookup04 (fun _ => .success (.jlist [])) ⟨[("Nemo", none)]⟩ "Nemo"
      = (none, ⟨[("Nemo", none)]⟩, false) :=
  ⟨rfl, rfl⟩

/-- C1 amended: every resolution outcome — successful or failed — is
memoized by the `lru_cache` wrapper: on a cache miss the underlying
resolver runs (a network request is issued) and its result, `some id` and
`none` alike, is inserted under the exact query string; an immediately
subsequent call with the same name is answered from the cache with the
same result and issues no network request. -/
theorem c1_amended_all_results_cached :
    ∀ (net : String → HttpOutcome) (c : LruCache (Option Int)) (q : String),
      alookup c.entries q = none →
      cachedLookup04 net c q
        = (lookup_player_id_ex04 (net q),
           ⟨((q, lookup_player_id_ex04 (net q)) :: c.entries).take 128⟩,
           true) ∧
      alookup (((q, lookup_player_id_ex04 (net q)) :: c.entries).take 128) q
        = some (lookup_player_id_ex04 (net q)) ∧
      (cachedLookup04 net
          ⟨((q, lookup_player_id_ex04 (net q)) :: c.entries).take 128⟩ q).1
        = lookup_player_id_ex04 (net q) ∧
      (cachedLookup04 net
          ⟨((q, lookup_player_id_ex04 (net q)) :: c.entries).take 128⟩ q).2.2
        = false := by
  intro net c q hmiss
  have hfound :
      alookup (((q, lookup_player_id_ex04 (net q)) :: c.entries).take 128) q
        = some (lookup_player_id_ex04 (net q)) := by
    rw [List.take_succ_cons]
    simp [alookup]
  refine ⟨?_, hfound, ?_, ?_⟩
  · simp [cachedLookup04, cachedCall, hmiss]
  · simp [cachedLookup04, cachedCall, alookup]
  · simp [cachedLookup04, cachedCall, alookup]

/-- Witness for C1 (amended): a failing lookup on a cold cache, then the
cached repeat. -/
theorem c1_witness :
    cachedLookup04 (fun _ => .timeout) ⟨[]⟩ "Wayne"
      = (none, ⟨[("Wayne", none)]⟩, true) ∧
    alookup [("Wayne", (none : Option Int))] "Wayne" = some none ∧
    (cachedLookup04 (fun _ => .timeout) ⟨[("Wayne", none)]⟩ "Wayne").1
      = none ∧
    (cachedLookup04 (fun _ => .timeout) ⟨[("Wayne", none)]⟩ "Wayne").2.2
      = false :=
  c1_amended_all_results_cached (fun _ => .timeout) ⟨[]⟩ "Wayne" rfl

theorem find_first_of_none_before {α : Type} (p : α → Bool) :
    ∀ (pre : List α) (b : α) (rest : List α),
      (∀ x ∈ pre, p x = false) → p b = true →
      (pre ++ b :: rest).find? p = some b := by
  intro pre
  induction pre with
  | nil =>
      intro b rest _ hb
      simp [List.find?, hb]
  | cons a t ih =>
      intro b rest hpre hb
      have ha : p a = false := hpre a (List.mem_cons_self a t)
      have ht : ∀ x ∈ t, p x = false :=
        fun x hx => hpre x (List.mem_cons_of_mem a hx)
      simp [List.find?, ha, ih b rest ht hb]

/-- C9: when the model's response has stop reason `tool_use`, the agent
loop honors only the *first* tool-use block of the response content (any
later tool-use blocks in `rest` are ignored): exactly one dispatch is
performed, and the single appended tool-result turn carries that first
block's id — the history grows by exactly the assistant turn and one
tool-result turn. -/
theorem c9_first_tool_use_block_only :
    ∀ (runGPS : ToolInput → Except String String) (messages : List Turn)
      (pre rest : List Block) (i n : String) (inp : ToolInput),
      (∀ x ∈ pre, x.isToolUse = false) →
      agentStep runGPS messages
        ⟨"tool_use", pre ++ Block.toolUse i n inp :: rest⟩
        = .ok (.inl (messages ++
            [Turn.assistant (pre ++ Block.toolUse i n inp :: rest),
             Turn.toolResult i (dispatch runGPS n inp).1
               (dispatch runGPS n inp).2])) := by
  intro runGPS messages pre rest i n inp hpre
  have hfind : (pre ++ Block.toolUse i n inp :: rest).find? Block.isToolUse
      = some (Block.toolUse i n inp) :=
    find_first_of_none_before Block.isToolUse pre (Block.toolUse i n inp)
      rest hpre rfl
  simp [agentStep, hfind]

/-- Witness for C9: a response containing a text block followed by two
tool-use blocks; only the first tool-use block (`id1`) is dispatched and
answered. -/
theorem c9_witness :
    agentStep (fun _ => .ok "stats") [Turn.user "hi"]
      ⟨"tool_use",
       [Block.text "thinking"] ++
         Block.toolUse "id1" "get_player_stats" [] ::
           [Block.toolUse "id2" "get_player_stats" []]⟩
      = .ok (.inl ([Turn.user "hi"] ++
          [Turn.assistant
            ([Block.text "thinking"] ++
              Block.toolUse "id1" "get_player_stats" [] ::
                [Block.toolUse "id2" "get_player_stats" []]),
           Turn.toolResult "id1"
             (dispatch (fun _ => .ok "stats") "get_player_stats" []).1
             (dispatch (fun _ => .ok "stats") "get_player_stats" []).2])) :=
  c9_first_tool_use_block_only (fun _ => .ok "stats") [Turn.user "hi"]
    [Block.text "thinking"] [Block.toolUse "id2" "get_player_stats" []]
    "id1" "get_player_stats" []
    (by
      intro x hx
      simp at hx
      subst hx
      rfl)

/-- C3 is false as stated: on a parseable response that omits the fields,
the string fields are not defaulted to the empty string — `team` defaults
to `"Unknown"` (ex04; `"N/A"` in ex02), `position` likewise, and
`player_name` becomes a single space `" "` (two empty name defaults joined
with `" "`).  The numeric fields do default to zero. -/
theorem c3_counterexample :
    extractStats04 (.jobj [])
      = .ok [("player_name", .jstr " "), ("team", .jstr "Unknown"),
             ("position", .jstr "Unknown"), ("games_played", .jnum 0),
             ("goals", .jnum 0), ("assists", .jnum 0),
             ("points", .jnum 0), ("shots", .jnum 0),
             ("shooting_pct", .jnum 0), ("power_play_goals", .jnum 0),
             ("power_play_points", .jnum 0), ("shorthanded_goals", .jnum 0),
             ("shorthanded_points", .jnum 0),
             ("game_winning_goals", .jnum 0), ("ot_goals", .jnum 0),
             ("plus_minus", .jnum 0), ("penalty_minutes", .jnum 0)] ∧
    ("Unknown" ≠ "") ∧ (JValue.jstr "Unknown").isNum = false := by
  refine ⟨?_, by decide, rfl⟩
  simp [extractStats04, pyGetD, alookup, pyStrConcat]

/-- C3 amended: on every parseable top-level document, every *numeric*
field the response omits defaults to zero — in particular a document
missing the whole season-statistics substructure yields the all-zero
numeric record — while the omitted *string* fields default to fixed
placeholders (`"Unknown"`/`"N/A"` for team and position, a single space
for the name); the record always carries all 17 keys in a fixed order and
is produced as a unit (the extraction returns either this complete record
or a single error). -/
theorem c3_amended_defaults :
    ∀ (fs : List (String × JValue)),
      alookup fs "featuredStats" = none →
      alookup fs "firstName" = none →
      alookup fs "lastName" = none →
      alookup fs "currentTeamAbbrev" = none →
      alookup fs "position" = none →
      extractStats04 (.jobj fs)
        = .ok [("player_name", .jstr " "), ("team", .jstr "Unknown"),
               ("position", .jstr "Unknown"), ("games_played", .jnum 0),
               ("goals", .jnum 0), ("assists", .jnum 0),
               ("points", .jnum 0), ("shots", .jnum 0),
               ("shooting_pct", .jnum 0), ("power_play_goals", .jnum 0),
               ("power_play_points", .jnum 0),
               ("shorthanded_goals", .jnum 0),
               ("shorthanded_points", .jnum 0),
               ("game_winning_goals", .jnum 0), ("ot_goals", .jnum 0),
               ("plus_minus", .jnum 0), ("penalty_minutes", .jnum 0)] ∧
      extractStats02 (.jobj fs)
        = .ok [("player_name", .jstr " "), ("team", .jstr "N/A"),
               ("position", .jstr "N/A"), ("games_played", .jnum 0),
               ("goals", .jnum 0), ("assists", .jnum 0),
               ("points", .jnum 0), ("shots", .jnum 0),
               ("shooting_pct", .jnum 0), ("power_play_goals", .jnum 0),
               ("power_play_points", .jnum 0),
               ("shorthanded_goals", .jnum 0),
               ("shorthanded_points", .jnum 0),
               ("game_winning_goals", .jnum 0), ("ot_goals", .jnum 0),
               ("plus_minus", .jnum 0), ("penalty_minutes", .jnum 0)] := by
  intro fs h1 h2 h3 h4 h5
  constructor
  · simp [extractStats04, pyGetD, h1, h2, h3, h4, h5, alookup, pyStrConcat]
  · simp [extractStats02, pyGetD, h1, h2, h3, h5, alookup, pyStrConcat]

/-- Witness for C3 (amended): a document carrying only an unrelated key
maps to the fully defaulted records. -/
theorem c3_witness :
    extractStats04 (.jobj [("playerId", .jnum 5)])
      = .ok [("player_name", .jstr " "), ("team", .jstr "Unknown"),
             ("position", .jstr "Unknown"), ("games_played", .jnum 0),
             ("goals", .jnum 0), ("assists", .jnum 0),
             ("points", .jnum 0), ("shots", .jnum 0),
             ("shooting_pct", .jnum 0), ("power_play_goals", .jnum 0),
             ("power_play_points", .jnum 0), ("shorthanded_goals", .jnum 0),
             ("shorthanded_points", .jnum 0),
             ("game_winning_goals", .jnum 0), ("ot_goals", .jnum 0),
             ("plus_minus", .jnum 0), ("penalty_minutes", .jnum 0)] ∧
    extractStats02 (.jobj [("playerId", .jnum 5)])
      = .ok [("player_name", .jstr " "), ("team", .jstr "N/A"),
             ("position", .jstr "N/A"), ("games_played", .jnum 0),
             ("goals", .jnum 0), ("assists", .jnum 0),
             ("points", .jnum 0), ("shots", .jnum 0),
             ("shooting_pct", .jnum 0), ("power_play_goals", .jnum 0),
             ("power_play_points", .jnum 0), ("shorthanded_goals", .jnum 0),
             ("shorthanded_points", .jnum 0),
             ("game_winning_goals", .jnum 0), ("ot_goals", .jnum 0),
             ("plus_minus", .jnum 0), ("penalty_minutes", .jnum 0)] :=
  c3_amended_defaults [("playerId", .jnum 5)] rfl rfl rfl rfl rfl

theorem getD_numeric (r : StatsRecord) (h : recordOK r = true) (f : String)
    (hf : f ∈ numericFields) :
    (alookup r f).getD (.jnum 0) = .jnum (numValD r f) := by
  unfold recordOK at h
  rw [Bool.and_eq_true] at h
  obtain ⟨hall, _⟩ := h
  rw [List.all_eq_true] at hall
  have hv := hall f hf
  unfold numValD
  cases hx : alookup r f with
  | none => simp
  | some v =>
      rw [hx] at hv
      cases v <;> simp_all [JValue.isNum]

theorem name_present (r : StatsRecord) (h : recordOK r = true) :
    alookup r "player_name" = some (recName r) := by
  unfold recordOK at h
  rw [Bool.and_eq_true] at h
  obtain ⟨_, hn⟩ := h
  unfold recName
  cases hx : alookup r "player_name" with
  | none => rw [hx] at hn; simp at hn
  | some v => simp

theorem compareField_eval (r1 r2 : StatsRecord)
    (h1 : recordOK r1 = true) (h2 : recordOK r2 = true) (f : String)
    (hf : f ∈ numericFields) :
    compareField r1 r2 f = .ok
      { val1 := .jnum (numValD r1 f),
        val2 := .jnum (numValD r2 f),
        difference := .jnum (numValD r1 f - numValD r2 f),
        leader :=
          if 0 < numValD r1 f - numValD r2 f then recName r1
          else if numValD r1 f - numValD r2 f < 0 then recName r2
          else .jstr "tied" } := by
  unfold compareField
  rw [getD_numeric r1 h1 f hf, getD_numeric r2 h2 f hf]
  simp [pySub, pySubscript, name_present r1 h1, name_present r2 h2,
    pyGtZero, pyLtZero]
  by_cases hgt : numValD r2 f < numValD r1 f <;>
    by_cases hlt : numValD r1 f < numValD r2 f <;>
      simp [hgt, hlt]

/-- C5: for every pair of well-formed stats records and every field of the
fixed ordered `numeric_fields` list, `compare_players` reports
`difference = a[field] - b[field]` and `leader` = `a`'s name if the
difference is positive, `b`'s name if negative, the literal `"tied"` if
zero; and the two orientations are consistent — differences are negated
and the leader (the same player, or `"tied"`) is preserved. -/
theorem c5_compare_consistency :
    ∀ (r1 r2 : StatsRecord), recordOK r1 = true → recordOK r2 = true →
      ∀ f ∈ numericFields,
        ∃ e1 e2,
          compareField r1 r2 f = .ok e1 ∧
          compareField r2 r1 f = .ok e2 ∧
          e1.val1 = .jnum (numValD r1 f) ∧
          e1.val2 = .jnum (numValD r2 f) ∧
          e1.difference = .jnum (numValD r1 f - numValD r2 f) ∧
          e1.leader = (if 0 < numValD r1 f - numValD r2 f then recName r1
                       else if numValD r1 f - numValD r2 f < 0
                       then recName r2
                       else .jstr "tied") ∧
          e2.difference = .jnum (-(numValD r1 f - numValD r2 f)) ∧
          e2.leader = e1.leader := by
  intro r1 r2 h1 h2 f hf
  refine ⟨_, _, compareField_eval r1 r2 h1 h2 f hf,
    compareField_eval r2 r1 h2 h1 f hf, rfl, rfl, rfl, rfl, ?_, ?_⟩
  · have : numValD r2 f - numValD r1 f = -(numValD r1 f - numValD r2 f) := by
      ring
    rw [this]
  · rcases lt_trichotomy (numValD r1 f) (numValD r2 f) with h | h | h
    · simp [sub_pos, sub_neg, h, lt_asymm h]
    · simp [h]
    · simp [sub_pos, sub_neg, h, lt_asymm h]

/-- Witness for C5: the spec's comparator scenario — `a` with 5 goals
versus `b` with 3 goals. -/
theorem c5_witness :
    ∃ e1 e2,
      compareField [("player_name", .jstr "A"), ("goals", .jnum 5)]
          [("player_name", .jstr "B"), ("goals", .jnum 3)] "goals"
        = .ok e1 ∧
      compareField [("player_name", .jstr "B"), ("goals", .jnum 3)]
          [("player_name", .jstr "A"), ("goals", .jnum 5)] "goals"
        = .ok e2 ∧
      e1.val1 = .jnum (numValD
        [("player_name", .jstr "A"), ("goals", .jnum 5)] "goals") ∧
      e1.val2 = .jnum (numValD
        [("player_name", .jstr "B"), ("goals", .jnum 3)] "goals") ∧
      e1.difference = .jnum
        (numValD [("player_name", .jstr "A"), ("goals", .jnum 5)] "goals" -
         numValD [("player_name", .jstr "B"), ("goals", .jnum 3)] "goals") ∧
      e1.leader = (if 0 <
          numValD [("player_name", .jstr "A"), ("goals", .jnum 5)] "goals" -
          numValD [("player_name", .jstr "B"), ("goals", .jnum 3)] "goals"
        then recName [("player_name", .jstr "A"), ("goals", .jnum 5)]
        else if
          numValD [("player_name", .jstr "A"), ("goals", .jnum 5)] "goals" -
          numValD [("player_name", .jstr "B"), ("goals", .jnum 3)] "goals"
          < 0
        then recName [("player_name", .jstr "B"), ("goals", .jnum 3)]
        else .jstr "tied") ∧
      e2.difference = .jnum
        (-(numValD [("player_name", .jstr "A"), ("goals", .jnum 5)] "goals" -
           numValD [("player_name", .jstr "B"), ("goals", .jnum 3)]
             "goals")) ∧
      e2.leader = e1.leader :=
  c5_compare_consistency
    [("player_name", .jstr "A"), ("goals", .jnum 5)]
    [("player_name", .jstr "B"), ("goals", .jnum 3)]
    rfl rfl "goals" (by decide)

theorem toolsOfPathItem_eq_filter (p : String) :
    ∀ (items : List (String × JValue)),
      toolsOfPathItem p items =
        exceptMapList (fun mo => buildTool p mo.1 mo.2)
          (items.filter (fun mo => mo.1 ∈ httpMethods)) := by
  intro items
  induction items with
  | nil => simp [toolsOfPathItem, exceptMapList]
  | cons mo rest ih =>
      obtain ⟨method, op⟩ := mo
      by_cases h : method ∈ httpMethods
      · simp [toolsOfPathItem, h, List.filter_cons, exceptMapList, ih]
      · simp [toolsOfPathItem, h, List.filter_cons, ih]

theorem toolsOfPaths_eq_spec :
    ∀ (paths : List (String × JValue)),
      toolsOfPaths paths = specTools paths := by
  intro paths
  induction paths with
  | nil => simp [toolsOfPaths, specTools, exceptMapList]
  | cons pi rest ih =>
      obtain ⟨p, item⟩ := pi
      unfold toolsOfPaths specTools
      rw [show ∀ (g : String × JValue → Except String (List ToolDef)) l0,
            exceptMapList g ((p, item) :: l0)
              = (do
                  let x ← g (p, item)
                  let xs ← exceptMapList g l0
                  pure (x :: xs))
          from fun g l0 => rfl]
      cases hi : pyItems item with
      | error e => simp [hi]
      | ok ops =>
          simp only [hi, except_bind_ok]
          rw [toolsOfPathItem_eq_filter]
          cases hm : exceptMapList (fun mo => buildTool p mo.1 mo.2)
              (ops.filter (fun mo => mo.1 ∈ httpMethods)) with
          | error e => simp [hi, hm]
          | ok ts =>
              cases hr : exceptMapList (fun pi => do
                  let ops ← pyItems pi.2
                  exceptMapList (fun mo => buildTool pi.1 mo.1 mo.2)
                    (ops.filter (fun mo => mo.1 ∈ httpMethods))) rest with
              | error e =>
                  have hrest : toolsOfPaths rest = .error e := by
                    rw [ih]
                    unfold specTools
                    rw [hr]
                    rfl
                  simp [hi, hm, hrest, hr]
              | ok ls =>
                  have hrest : toolsOfPaths rest = .ok ls.flatten := by
                    rw [ih]
                    unfold specTools
                    rw [hr]
                    rfl
                  simp [hi, hm, hrest, hr]

/-- C6: for every parsed specification document (an object whose `paths`
entry is an object), the generator emits exactly one tool per operation
whose method is on the fixed allow-list (`get`/`post`/`put`/`delete`/
`patch` — retrieve/create/update/replace/delete), skips every operation
with any other method key, and emits the tools in the order the
operations are encountered in the document: it agrees with the
specification-side `specTools` (per-path, in order: filter by allow-list,
then one `buildTool` per surviving operation). -/
theorem c6_generator_allowlist_order :
    ∀ (fs paths : List (String × JValue)),
      alookup fs "paths" = some (.jobj paths) →
      openapi_to_tools (.jobj fs) = specTools paths := by
  intro fs paths h
  unfold openapi_to_tools
  simp [pyGetD, h, pyItems, toolsOfPaths_eq_spec]

/-- Witness for C6: a document with one path carrying a `get` operation, a
non-method `description` key (skipped), and a `trace` operation (not on
the allow-list, skipped). -/
theorem c6_witness :
    openapi_to_tools (.jobj [("openapi", .jstr "3.0.0"),
      ("paths", .jobj [("/search/player", .jobj
        [("get", .jobj [("operationId", .jstr "searchPlayer")]),
         ("trace", .jobj [("operationId", .jstr "traceIt")])])])])
      = specTools [("/search/player", .jobj
          [("get", .jobj [("operationId", .jstr "searchPlayer")]),
           ("trace", .jobj [("operationId", .jstr "traceIt")])])] :=
  c6_generator_allowlist_order
    [("openapi", .jstr "3.0.0"),
     ("paths", .jobj [("/search/player", .jobj
        [("get", .jobj [("operationId", .jstr "searchPlayer")]),
         ("trace", .jobj [("operationId", .jstr "traceIt")])])])]
    [("/search/player", .jobj
        [("get", .jobj [("operationId", .jstr "searchPlayer")]),
         ("trace", .jobj [("operationId", .jstr "traceIt")])])]
    rfl

theorem assocSet_fresh {α : Type} :
    ∀ (l : List (String × α)) (k : String) (v : α),
      (∀ p ∈ l, p.1 ≠ k) → assocSet l k v = l ++ [(k, v)] := by
  intro l
  induction l with
  | nil => intro k v _; rfl
  | cons p t ih =>
      intro k v hfresh
      obtain ⟨k', v'⟩ := p
      have hk : k' ≠ k := hfresh (k', v') (List.mem_cons_self _ _)
      simp [assocSet, hk, ih k v
        (fun p hp => hfresh p (List.mem_cons_of_mem _ hp))]

theorem encode_name (d : PDecl) :
    pySubscript d.encode "name" = .ok (.jstr d.pname) := by
  obtain ⟨pn, ps, pd, pr⟩ := d
  rcases ps with _ | _ | t <;> rcases pd with _ | s <;>
    simp [PDecl.encode, pySubscript, alookup]

theorem encode_type (d : PDecl) :
    (do
      let pschema ← pyGetD d.encode "schema" (.jobj [("type", .jstr "string")])
      pyGetD pschema "type" (.jstr "string") : Except String JValue)
      = .ok (.jstr d.resolvedType) := by
  obtain ⟨pn, ps, pd, pr⟩ := d
  rcases ps with _ | _ | t <;> rcases pd with _ | s <;>
    simp [PDecl.encode, PDecl.resolvedType, pyGetD, alookup]

theorem encode_descr (d : PDecl) :
    pyGetD d.encode "description" (.jstr "")
      = .ok (.jstr (d.pdescr.getD "")) := by
  obtain ⟨pn, ps, pd, pr⟩ := d
  rcases ps with _ | _ | t <;> rcases pd with _ | s <;>
    simp [PDecl.encode, pyGetD, alookup]

theorem encode_required (d : PDecl) :
    pyGetD d.encode "required" (.jbool false) = .ok (.jbool d.preq) := by
  obtain ⟨pn, ps, pd, pr⟩ := d
  rcases ps with _ | _ | t <;> rcases pd with _ | s <;>
    simp [PDecl.encode, pyGetD, alookup]

theorem buildParams_encoded :
    ∀ (ds : List PDecl) (props : List (String × JValue)) (reqs : List JValue),
      (∀ d ∈ ds, ∀ p ∈ props, p.1 ≠ d.pname) →
      (ds.map PDecl.pname).Nodup →
      buildParams (ds.map PDecl.encode) props reqs =
        .ok (props ++ ds.map (fun d => (d.pname, d.propObj)),
             reqs ++ (ds.filter (fun d => d.preq)).map
               (fun d => (.jstr d.pname : JValue))) := by
  intro ds
  induction ds with
  | nil => intro props reqs _ _; simp [buildParams]
  | cons d rest ih =>
      intro props reqs hfresh hnodup
      rw [List.map_cons, List.nodup_cons] at hnodup
      obtain ⟨hdncons, hndrest⟩ := hnodup
      have hfreshd : ∀ p ∈ props, p.1 ≠ d.pname :=
        hfresh d (List.mem_cons_self _ _)
      have hset : assocSet props d.pname d.propObj
          = props ++ [(d.pname, d.propObj)] :=
        assocSet_fresh props d.pname d.propObj hfreshd
      have hfresh' : ∀ d' ∈ rest,
          ∀ p ∈ props ++ [(d.pname, d.propObj)], p.1 ≠ d'.pname := by
        intro d' hd' p hp
        rcases List.mem_append.mp hp with hp | hp
        · exact hfresh d' (List.mem_cons_of_mem _ hd') p hp
        · have hp' : p = (d.pname, d.propObj) := List.mem_singleton.mp hp
          subst hp'
          intro hEq
          have hEq' : d.pname = d'.pname := hEq
          rw [hEq'] at hdncons
          exact hdncons (List.mem_map_of_mem PDecl.pname hd')
      show buildParams (d.encode :: rest.map PDecl.encode) props reqs = _
      unfold buildParams
      rw [show (pySubscript d.encode "name") = .ok (.jstr d.pname)
        from encode_name d]
      simp only [except_bind_ok]
      cases hps : pyGetD d.encode "schema"
          (.jobj [("type", .jstr "string")]) with
      | error e =>
          exact absurd (encode_type d) (by simp [hps])
      | ok pschema =>
          have htype : pyGetD pschema "type" (.jstr "string")
              = .ok (.jstr d.resolvedType) := by
            have := encode_type d
            rw [hps] at this
            simpa using this
          simp only [htype, except_bind_ok, encode_descr d,
            encode_required d]
          rw [show JValue.jobj [("type", JValue.jstr d.resolvedType),
                ("description", JValue.jstr (d.pdescr.getD ""))]
              = d.propObj from rfl]
          rw [hset]
          by_cases hreq : d.preq
          · rw [if_pos (show (JValue.jbool d.preq).truthy = true by
              simp [JValue.truthy, hreq])]
            rw [ih (props ++ [(d.pname, d.propObj)])
              (reqs ++ [(.jstr d.pname : JValue)]) hfresh' hndrest]
            simp [hreq, List.filter_cons, List.append_assoc]
          · rw [if_neg (show ¬ (JValue.jbool d.preq).truthy = true by
              simp [JValue.truthy, hreq])]
            rw [ih (props ++ [(d.pname, d.propObj)]) reqs hfresh' hndrest]
            simp [hreq, List.filter_cons, List.append_assoc]

/-- C7: for every operation turned into a tool, `name` is the declared
`operationId` or, if absent, the fallback `{method}_{path}` with `/`
replaced by `_`; `description` is the operation's description, falling
back to its summary, falling back to the empty string; each declared
parameter contributes a `properties` entry with its declared type
(defaulting to `"string"` when the schema or its type is unspecified) and
its description (defaulting to empty); and exactly the parameters marked
required have their names appended, in order, to the required list. -/
theorem c7_tool_fields :
    ∀ (path method : String) (ops : List (String × JValue)) (ds : List PDecl),
      alookup ops "parameters" = some (.jlist (ds.map PDecl.encode)) →
      (ds.map PDecl.pname).Nodup →
      buildTool path method (.jobj ops) = .ok
        { name := (alookup ops "operationId").getD
            (.jstr (method ++ "_" ++ path.replace "/" "_")),
          description := (alookup ops "description").getD
            ((alookup ops "summary").getD (.jstr "")),
          properties := ds.map (fun d => (d.pname, d.propObj)),
          required := (ds.filter (fun d => d.preq)).map
            (fun d => (.jstr d.pname : JValue)) } := by
  intro path method ops ds hparams hnodup
  unfold buildTool
  simp only [pyGetD, hparams, Option.getD_some, except_bind_ok, pyToList]
  rw [buildParams_encoded ds [] [] (by simp) hnodup]
  simp

/-- Witness for C7: the `searchPlayer` operation of the embedded NHL spec —
declared id, description over summary, one required string parameter
`q`. -/
theorem c7_witness :
    buildTool "/search/player" "get"
      (.jobj [("operationId", .jstr "searchPlayer"),
              ("summary", .jstr "Search for NHL players by name"),
              ("description", .jstr "Searches the NHL player database"),
              ("parameters", .jlist
                [PDecl.encode ⟨"q", some (some "string"),
                  some "Player name to search for", true⟩])])
      = .ok
        { name := (alookup
            [("operationId", (.jstr "searchPlayer" : JValue)),
             ("summary", .jstr "Search for NHL players by name"),
             ("description", .jstr "Searches the NHL player database"),
             ("parameters", .jlist
               [PDecl.encode ⟨"q", some (some "string"),
                 some "Player name to search for", true⟩])]
            "operationId").getD
            (.jstr ("get" ++ "_" ++ ("/search/player").replace "/" "_")),
          description := (alookup
            [("operationId", (.jstr "searchPlayer" : JValue)),
             ("summary", .jstr "Search for NHL players by name"),
             ("description", .jstr "Searches the NHL player database"),
             ("parameters", .jlist
               [PDecl.encode ⟨"q", some (some "string"),
                 some "Player name to search for", true⟩])]
            "description").getD
            ((alookup
              [("operationId", (.jstr "searchPlayer" : JValue)),
               ("summary", .jstr "Search for NHL players by name"),
               ("description", .jstr "Searches the NHL player database"),
               ("parameters", .jlist
                 [PDecl.encode ⟨"q", some (some "string"),
                   some "Player name to search for", true⟩])]
              "summary").getD (.jstr "")),
          properties := [(⟨"q", some (some "string"),
            some "Player name to search for", true⟩ : PDecl)].map
              (fun d => (d.pname, d.propObj)),
          required := ([(⟨"q", some (some "string"),
            some "Player name to search for", true⟩ : PDecl)].filter
              (fun d => d.preq)).map
                (fun d => (.jstr d.pname : JValue)) } :=
  c7_tool_fields "/search/player" "get"
    [("operationId", .jstr "searchPlayer"),
     ("summary", .jstr "Search for NHL players by name"),
     ("description", .jstr "Searches the NHL player database"),
     ("parameters", .jlist
       [PDecl.encode ⟨"q", some (some "string"),
         some "Player name to search for", true⟩])]
    [⟨"q", some (some "string"), some "Player name to search for", true⟩]
    rfl (by simp)
